import Mathlib

/-!
A shallow embedding of `aioeasysqlite/db.py` (the `Db` class: an in-memory
schema cache plus a SQL facade over a SQLite file).

Modelling conventions:
* Python values that can be bound as SQL parameters (`str`, `int`, `float`,
  `bytes`, `None`) become the inductive `PyVal`.  Floats are represented by
  rationals; the embedded scenarios only ever compare values for equality and
  the source performs no float arithmetic.
* The on-disk database is a `Disk`: an association list from table name to a
  `DiskTable` (column declarations plus rows in insertion order).  Each SQL
  statement the source builds has a fixed shape, so its SQLite semantics is
  embedded as one function per statement shape (`diskRename`,
  `diskAlterAddColumn`, `diskInsert`, ...).
* The schema cache `self.tables : Dict[str, {"columns": [...]}]` becomes an
  association list from table name to `List ColDesc`, preserving Python's
  dict insertion order.
* Every facade method is a function `Db → ... → Db × Except Err A`: the
  returned `Db` is the state of the object after the call, including the
  mutations that survive a raised exception (Python exceptions do not undo
  assignments to `self.tables`), and the `Except` is the returned value or
  the raised exception.
* The `db_exists` decorator only re-checks that the database file exists on
  the filesystem; no claim concerns a deleted file, so the embedding treats
  the file as always present.
* SQLite column-affinity coercion of comparison operands is not modelled;
  every embedded comparison is between values of like type.
-/

namespace AioEasySqlite

/-- A Python value that the facade accepts as a cell value
(`str`, `int`, `float`, `bytes`, `None`). -/
inductive PyVal where
  | pyInt (n : Int)
  | pyFloat (q : Rat)
  | pyStr (s : String)
  | pyBytes (bs : List Nat)
  | pyNone
deriving DecidableEq, Repr

instance : Inhabited PyVal := ⟨PyVal.pyNone⟩

/-- Python `==` on the supported value types: `int` and `float` compare by
numeric value, everything else structurally, cross-type comparisons are
`False`. -/
def pyEq : PyVal → PyVal → Bool
  | .pyInt a, .pyInt b => a == b
  | .pyInt a, .pyFloat b => (a : Rat) == b
  | .pyFloat a, .pyInt b => a == (b : Rat)
  | .pyFloat a, .pyFloat b => a == b
  | .pyStr a, .pyStr b => a == b
  | .pyBytes a, .pyBytes b => a == b
  | .pyNone, .pyNone => true
  | _, _ => false

/-- SQL `=` between a stored cell and a bound parameter: like `pyEq`, except
`NULL` never compares equal to anything (`NULL = x` is not true in SQL). -/
def sqlEq : PyVal → PyVal → Bool
  | .pyNone, _ => false
  | _, .pyNone => false
  | a, b => pyEq a b

/-- The exception taxonomy of `aioeasysqlite/exceptions.py`, plus Python's
builtin `TypeError` which `add_row`/`edit_row` raise for bytes-typed
columns. -/
inductive Err where
  | aioEasySqliteError
  | encodeError
  | pathNotFound
  | invalidDatabasePath
  | invalidTableName
  | invalidCharacterInName
  | tableAlreadyExists
  | tableNotFound
  | unknownColumnType
  | columnAlreadyExists
  | invalidAutoincrementUsage
  | invalidDefaultValue
  | columnNotFound
  | invalidArgsType
  | invalidArgsLength
  | invalidValueConversion
  | unsupportedValueType
  | duplicateColumnInArgs
  | uniqueConstraintViolation
  | notNullConstraintViolation
  | missingRequiredArgument
  | invalidIndexType
  | invalidIndexValue
  | indexOutOfRange
  | invalidType
  | multiplePrimaryKeys
  | typeError
deriving DecidableEq, Repr

/-- One cached column descriptor: the dict
`{"name": ..., "type": ..., "is_unique": ...}` appended by `add_column` and
rebuilt by `_retrieveData`. -/
structure ColDesc where
  name : String
  type : String
  is_unique : Bool
deriving DecidableEq, Repr

/-- A column of an on-disk table, as declared by the CREATE/ALTER statements
the facade emits: name, declared type, and the PRIMARY KEY / NOT NULL /
UNIQUE / DEFAULT clauses.  (AUTOINCREMENT only affects rowid reuse, which the
model does not observe, so it is not recorded.) -/
structure DiskCol where
  name : String
  type : String
  pk : Bool
  notnull : Bool
  unique : Bool
  dflt : Option PyVal
deriving DecidableEq, Repr

instance : Inhabited DiskCol := ⟨⟨"", "", false, false, false, none⟩⟩

/-- An on-disk table: declared columns and rows (each row is a list of cells
aligned with `cols`, in insertion order). -/
structure DiskTable where
  cols : List DiskCol
  rows : List (List PyVal)
deriving DecidableEq, Repr

/-- The on-disk database: tables in creation order. -/
abbrev Disk := List (String × DiskTable)

/-- The in-memory schema cache `self.tables`. -/
abbrev Cache := List (String × List ColDesc)

/-- A row rendered as Python's `dict(row)`: keys in column order. -/
abbrev Row := List (String × PyVal)

/-- The state of a `Db` object: the schema cache and the backing file. -/
structure Db where
  tables : Cache
  disk : Disk
deriving DecidableEq, Repr

/-- Replace the value stored under key `k` (Python's in-place mutation of
`self.tables[k]`; the entry keeps its position). -/
def updateAssoc (l : List (String × α)) (k : String) (v : α) : List (String × α) :=
  l.map (fun p => if p.1 = k then (k, v) else p)

/-- Python's `del d[k]`. -/
def delAssoc (l : List (String × α)) (k : String) : List (String × α) :=
  l.filter (fun p => p.1 ≠ k)

/-- `string.ascii_letters + string.digits + '_'`: the characters allowed in
table and column names. -/
def availChar (c : Char) : Bool :=
  c.isAlpha || c.isDigit || c = '_'

/-- UTF-8 bytes of one character (Python's `str.encode()` with the default
codec; Lean's `Char` excludes surrogates, so encoding never fails and the
source's `UnicodeEncodeError` branch is unreachable). -/
def charUtf8 (c : Char) : List Nat :=
  let n := c.toNat
  if n < 0x80 then [n]
  else if n < 0x800 then [0xC0 + n / 64, 0x80 + n % 64]
  else if n < 0x10000 then [0xE0 + n / 4096, 0x80 + (n / 64) % 64, 0x80 + n % 64]
  else [0xF0 + n / 262144, 0x80 + (n / 4096) % 64, 0x80 + (n / 64) % 64, 0x80 + n % 64]

/-- Python `str.encode()`. -/
def pyEncode (s : String) : List Nat :=
  (s.data.map charUtf8).flatten

/-- `self.types[ctype] in [int, float]` for the fixed `types` dict. -/
def typeIsNum (ctype : String) : Bool :=
  ctype == "INTEGER" || ctype == "REAL"

/-- `self.types[ctype] is bytes` for the fixed `types` dict. -/
def typeIsBytes (ctype : String) : Bool :=
  ctype == "BLOB"

/-- Python `all(i.isdigit() for i in value)` (note: vacuously true for the
empty string, as in the source). -/
def allDigits (s : String) : Bool :=
  s.data.all Char.isDigit

/-- The names of a disk table's columns. -/
def colNames (tbl : DiskTable) : List String :=
  tbl.cols.map (·.name)

/-- Position of a named column in a disk table. -/
def colIndex (tbl : DiskTable) (c : String) : Option Nat :=
  (colNames tbl).indexOf? c

/-- Cell `i` of a row (rows are always aligned with the column list). -/
def colCell (row : List PyVal) (i : Nat) : PyVal :=
  row.getD i .pyNone

/-- Render a row as the `dict` produced by `aiosqlite.Row`. -/
def rowDict (cols : List DiskCol) (row : List PyVal) : Row :=
  List.zip (cols.map (·.name)) row

/-- Value of the named column within a row. -/
def cellNamed (tbl : DiskTable) (row : List PyVal) (c : String) : PyVal :=
  match colIndex tbl c with
  | some i => colCell row i
  | none => .pyNone

/-- The cell an omitted column receives on INSERT / on ALTER ADD: the DEFAULT
clause if present (the facade passes the Python string `"NULL"` to mean SQL
NULL), otherwise NULL. -/
def defaultCell : Option PyVal → PyVal
  | none => .pyNone
  | some (.pyStr "NULL") => .pyNone
  | some v => v

/-- `ALTER TABLE "old" RENAME TO "new"`: fails when `old` is not on disk or
`new` already is. -/
def diskRename (disk : Disk) (old new : String) : Except Unit Disk :=
  if (disk.lookup old).isNone then .error ()
  else if (disk.lookup new).isSome then .error ()
  else .ok (disk.map (fun p => if p.1 = old then (new, p.2) else p))

/-- `CREATE TABLE IF NOT EXISTS "t" ("name" type clauses)`: a no-op when the
table already exists on disk. -/
def diskCreateIfNotExists (disk : Disk) (table : String) (c : DiskCol) : Disk :=
  if (disk.lookup table).isSome then disk
  else disk ++ [(table, { cols := [c], rows := [] })]

/-- `ALTER TABLE "t" ADD COLUMN "name" type clauses`.  SQLite rejects an added
column that is PRIMARY KEY, UNIQUE, or NOT NULL without a (non-NULL) default;
otherwise the column is appended and existing rows receive the default. -/
def diskAlterAddColumn (disk : Disk) (table : String) (c : DiskCol) : Except Unit Disk :=
  match disk.lookup table with
  | none => .error ()
  | some tbl =>
    if (colNames tbl).contains c.name then .error ()
    else if c.pk then .error ()
    else if c.unique then .error ()
    else if c.notnull ∧ c.dflt = none then .error ()
    else
      let cell := defaultCell c.dflt
      .ok (updateAssoc disk table
        { cols := tbl.cols ++ [c], rows := tbl.rows.map (· ++ [cell]) })

/-- Largest integer currently stored in column `i` (for the rowid-alias
auto-assignment of an INTEGER PRIMARY KEY receiving NULL). -/
def maxIntAt (rows : List (List PyVal)) (i : Nat) : Int :=
  rows.foldl (fun m r => match colCell r i with | .pyInt n => max m n | _ => m) 0

/-- Engine-side constraint check for cell `i` of a row about to be inserted:
NULL into an INTEGER PRIMARY KEY is auto-assigned, NULL into any other
PRIMARY KEY or a NOT NULL column fails, and a PRIMARY KEY / UNIQUE collision
with an existing row fails. -/
def resolveCell (tbl : DiskTable) (row : List PyVal) (i : Nat) : Except Unit PyVal :=
  let c := tbl.cols.getD i default
  let v := colCell row i
  if c.pk ∧ v = .pyNone then
    if c.type = "INTEGER" then .ok (.pyInt (1 + maxIntAt tbl.rows i)) else .error ()
  else if c.notnull ∧ v = .pyNone then .error ()
  else if (c.pk ∨ c.unique) ∧ tbl.rows.any (fun r => sqlEq (colCell r i) v) then .error ()
  else .ok v

/-- `INSERT INTO "t"(cols) VALUES (?...)` with bound parameters `vals`. -/
def diskInsert (disk : Disk) (table : String) (cs : List String) (vals : List PyVal) :
    Except Unit Disk :=
  match disk.lookup table with
  | none => .error ()
  | some tbl =>
    if ¬ cs.all (fun c => (colNames tbl).contains c) then .error ()
    else if ¬ cs.Nodup then .error ()
    else
      let argPairs := List.zip cs vals
      let newRow := tbl.cols.map (fun c =>
        match argPairs.lookup c.name with
        | some v => v
        | none => defaultCell c.dflt)
      match (List.range tbl.cols.length).mapM (resolveCell tbl newRow) with
      | .error _ => .error ()
      | .ok finalRow =>
        .ok (updateAssoc disk table { tbl with rows := tbl.rows ++ [finalRow] })

/-- `SELECT * FROM "t" WHERE "c" = ? LIMIT 1`: the first matching row as a
dict, if any. -/
def diskSelectWhere (disk : Disk) (table c : String) (v : PyVal) :
    Except Unit (Option Row) :=
  match disk.lookup table with
  | none => .error ()
  | some tbl =>
    match colIndex tbl c with
    | none => .error ()
    | some j => .ok ((tbl.rows.find? (fun r => sqlEq (colCell r j) v)).map (rowDict tbl.cols))

/-- `DELETE FROM "t" WHERE "c" = ?`: removes every matching row (the
statement carries no LIMIT). -/
def diskDeleteWhere (disk : Disk) (table c : String) (v : PyVal) : Except Unit Disk :=
  match disk.lookup table with
  | none => .error ()
  | some tbl =>
    match colIndex tbl c with
    | none => .error ()
    | some j =>
      .ok (updateAssoc disk table
        { tbl with rows := tbl.rows.filter (fun r => ¬ sqlEq (colCell r j) v) })

/-- `UPDATE "t" SET "ce" = ? WHERE rowid = (SELECT rowid FROM "t" WHERE
"cf" = ? LIMIT 1)`: updates only the first row matching the find predicate;
the engine still enforces PRIMARY KEY / UNIQUE / NOT NULL on the new value. -/
def diskUpdateFirst (disk : Disk) (table ce : String) (newV : PyVal) (cf : String)
    (findV : PyVal) : Except Unit Disk :=
  match disk.lookup table with
  | none => .error ()
  | some tbl =>
    match colIndex tbl ce, colIndex tbl cf with
    | some ie, some jf =>
      match tbl.rows.findIdx? (fun r => sqlEq (colCell r jf) findV) with
      | none => .ok disk
      | some ri =>
        let c := tbl.cols.getD ie default
        if c.pk ∧ newV = .pyNone then .error ()
        else if c.notnull ∧ newV = .pyNone then .error ()
        else if (c.pk ∨ c.unique) ∧
            (tbl.rows.enum.any (fun p => p.1 ≠ ri ∧ sqlEq (colCell p.2 ie) newV)) then
          .error ()
        else
          let oldRow := tbl.rows.getD ri []
          .ok (updateAssoc disk table
            { tbl with rows := tbl.rows.set ri (oldRow.set ie newV) })
    | _, _ => .error ()

/-! ## Catalog-introspection helpers (`PRAGMA table_info`, index pragmas) -/

/-- `_get_pk`: name of the first column `PRAGMA table_info` reports with
`pk = 1`; `None` when the table has no primary key or is not on disk
(the pragma returns no rows for a missing table). -/
def getPk (disk : Disk) (table : String) : Option String :=
  match disk.lookup table with
  | none => none
  | some tbl => (tbl.cols.find? (·.pk)).map (·.name)

/-- `_get_type`: declared type of the named column per `PRAGMA table_info`. -/
def getType (disk : Disk) (table column : String) : Option String :=
  match disk.lookup table with
  | none => none
  | some tbl => (tbl.cols.find? (fun c => c.name == column)).map (·.type)

/-- `_get_nn`: names of the NOT NULL columns, or `None` when there are none
(the source returns `None` instead of an empty list). -/
def getNn (disk : Disk) (table : String) : Option (List String) :=
  let result :=
    match disk.lookup table with
    | none => []
    | some tbl => (tbl.cols.filter (·.notnull)).map (·.name)
  if result ≠ [] then some result else none

/-- `_get_uq`: names of the columns whose cached descriptor has
`is_unique = True` (this helper reads the cache, not the disk), or `None`
when there are none. -/
def getUq (tables : Cache) (table : String) : Option (List String) :=
  let result := (((tables.lookup table).getD []).filter (·.is_unique)).map (·.name)
  if result ≠ [] then some result else none

/-- Python `column in maybe_list` guarded by the truthiness of the list
(`if notnull_cols and column in notnull_cols`). -/
def memOpt (o : Option (List String)) (c : String) : Bool :=
  match o with
  | some l => l.contains c
  | none => false

/-- Membership of `c` in some unique index of `t`, as the `try` block of
`_is_column_unique` computes it from `PRAGMA index_list` / `PRAGMA
index_info`: a UNIQUE column constraint materialises as a one-column unique
auto-index (an INTEGER PRIMARY KEY is a rowid alias and has no index). -/
def isColumnUniqueTry (disk : Disk) (t c : String) : Bool :=
  match disk.lookup t with
  | none => false
  | some tbl => ((tbl.cols.filter (·.unique)).map (·.name)).contains c

/-- `_is_column_unique`.  The `try` block computes unique-index membership
(`isColumnUniqueTry`), but the source ends with `finally: return False`, and
in Python a `return` inside `finally` replaces any value returned from the
`try` block — so the method returns `False` on every input. -/
def isColumnUnique (disk : Disk) (t c : String) : Bool :=
  let _tryReturn := isColumnUniqueTry disk t c
  false

/-! ## Facade methods -/

/-- `new_table`: validates the name (reserved prefix first, then the
character set, then a duplicate check) and registers an empty column list in
the cache.  No SQL statement is executed. -/
def new_table (db : Db) (name : String) : Db × Except Err Unit :=
  if name.startsWith "sqlite_" then (db, .error .invalidTableName)
  else if ¬ name.data.all availChar then (db, .error .invalidCharacterInName)
  else if (db.tables.lookup name).isSome then (db, .error .tableAlreadyExists)
  else ({ db with tables := db.tables ++ [(name, [])] }, .ok ())

/-- `get_table`: all rows as dicts.  A table whose cached column list is
empty short-circuits to `[]` without touching disk; otherwise `SELECT *`
runs (and fails when the table was never materialised on disk). -/
def get_table (db : Db) (table : String) : Db × Except Err (List Row) :=
  match db.tables.lookup table with
  | none => (db, .error .tableNotFound)
  | some cols =>
    if cols.length = 0 then (db, .ok [])
    else
      match db.disk.lookup table with
      | none => (db, .error .aioEasySqliteError)
      | some tbl => (db, .ok (tbl.rows.map (rowDict tbl.cols)))

/-- `edit_table`: renames a table.  The cache entry is moved to the new key
(`self.tables[new_name] = self.tables[table]; del self.tables[table]`)
*before* the `ALTER TABLE ... RENAME` statement executes, and a statement
failure is re-raised as `AioEasySqliteError` without undoing the cache
mutation. -/
def edit_table (db : Db) (table new_name : String) : Db × Except Err Unit :=
  if ¬ new_name.data.all availChar then (db, .error .invalidCharacterInName)
  else
    match db.tables.lookup table with
    | none => (db, .error .tableNotFound)
    | some cols =>
      if (db.tables.lookup new_name).isSome then (db, .error .tableAlreadyExists)
      else
        let db2 := { db with tables := delAssoc db.tables table ++ [(new_name, cols)] }
        match diskRename db.disk table new_name with
        | .ok d => ({ db2 with disk := d }, .ok ())
        | .error _ => (db2, .error .aioEasySqliteError)

/-- `add_column`: validates name/type/table/duplicate, then *appends the
descriptor to the cache*, and only afterwards checks the primary-key /
autoincrement / default combinations and runs the SQL (a `CREATE TABLE IF
NOT EXISTS` for the table's first column, an `ALTER TABLE ... ADD COLUMN`
otherwise).  Failures after the append leave the descriptor in the cache. -/
def add_column (db : Db) (table name type : String) (primary_key autoincrement
    not_null unique : Bool) (dflt : Option PyVal) : Db × Except Err Unit :=
  if ¬ name.data.all availChar then (db, .error .invalidCharacterInName)
  else if ¬ (type = "TEXT" ∨ type = "INTEGER" ∨ type = "REAL" ∨ type = "BLOB") then
    (db, .error .unknownColumnType)
  else
    match db.tables.lookup table with
    | none => (db, .error .tableNotFound)
    | some cols =>
      if (cols.map (·.name)).contains name then (db, .error .columnAlreadyExists)
      else
        let cols2 := cols ++ [{ name := name, type := type, is_unique := unique }]
        let db2 := { db with tables := updateAssoc db.tables table cols2 }
        let pkCol := getPk db.disk table
        if primary_key ∧ pkCol.isSome then (db2, .error .multiplePrimaryKeys)
        else if autoincrement ∧ type ≠ "INTEGER" ∧ primary_key then
          (db2, .error .invalidAutoincrementUsage)
        else if autoincrement ∧ ¬ primary_key then
          (db2, .error .invalidAutoincrementUsage)
        else if dflt = some (.pyStr "NULL") ∧ not_null then
          (db2, .error .invalidDefaultValue)
        else
          let dcol : DiskCol :=
            { name := name, type := type, pk := primary_key, notnull := not_null,
              unique := unique, dflt := dflt }
          if cols2.length = 1 then
            ({ db2 with disk := diskCreateIfNotExists db2.disk table dcol }, .ok ())
          else
            match diskAlterAddColumn db2.disk table dcol with
            | .ok d => ({ db2 with disk := d }, .ok ())
            | .error _ => (db2, .error .aioEasySqliteError)

/-- `get_column`: the whole column as `(index, item)` pairs.  With type tag
`"PK"` the statement selects `(pk, column)` pairs, but the code then keeps
only `i[0]` of each fetched row — the primary-key value — and enumerates,
so the produced pairs are `(position, pk-value)`.  With `"IND"` the
statement selects only the column and the pairs are `(position, value)`.
An empty table yields `None`. -/
def get_column (db : Db) (table column type : String) :
    Db × Except Err (Option (List (Nat × PyVal))) :=
  match db.tables.lookup table with
  | none => (db, .error .tableNotFound)
  | some cols =>
    if ¬ (cols.map (·.name)).contains column then (db, .error .columnNotFound)
    else if cols.length = 0 then (db, .ok none)
    else if ¬ (type = "PK" ∨ type = "IND") then (db, .error .invalidType)
    else
      let pkCol := getPk db.disk table
      if pkCol.isNone ∧ type = "PK" then (db, .error .aioEasySqliteError)
      else
        match db.disk.lookup table with
        | none => (db, .error .aioEasySqliteError)
        | some tbl =>
          let firstSel := if pkCol.isSome ∧ type = "PK" then pkCol.getD "" else column
          if ¬ (colNames tbl).contains firstSel then (db, .error .aioEasySqliteError)
          else
            let items := tbl.rows.map (fun r => cellNamed tbl r firstSel)
            if items ≠ [] then (db, .ok (some items.enum)) else (db, .ok none)

/-- Per-value type check and conversion inside `add_row`'s first loop:
text digits may go into numeric columns, bytes may only go into a BLOB
column — but a BLOB column itself accepts only `str` (auto-encoded); any
non-`str` value for a BLOB column raises `TypeError`. -/
def checkValueAddRow (ctype : String) (v : PyVal) : Except Err PyVal :=
  match v with
  | .pyStr s =>
    if typeIsNum ctype ∧ ¬ allDigits s then .error .invalidValueConversion
    else if typeIsBytes ctype then .ok (.pyBytes (pyEncode s))
    else .ok v
  | .pyBytes _ =>
    if ¬ typeIsBytes ctype then .error .invalidValueConversion
    else .error .typeError
  | _ =>
    if typeIsBytes ctype then .error .typeError
    else .ok v

/-- `add_row`'s first loop: column-existence check, type lookup, value
conversion; accumulates the column list and the (converted) value list. -/
def buildColsVals (disk : Disk) (cacheNames : List String) (table : String) :
    List (String × PyVal) → Except Err (List String × List PyVal)
  | [] => .ok ([], [])
  | (column, value) :: rest =>
    if ¬ cacheNames.contains column then .error .columnNotFound
    else
      match getType disk table column with
      | none => .error .aioEasySqliteError
      | some ctype =>
        match checkValueAddRow ctype value with
        | .error e => .error e
        | .ok v =>
          match buildColsVals disk cacheNames table rest with
          | .error e => .error e
          | .ok (cs, vs) => .ok (column :: cs, v :: vs)

/-- `add_row`'s second loop: the application-level uniqueness and not-null
pre-checks, run over the *original* argument values against the column
contents fetched through `get_column`. -/
def preChecks (db : Db) (table : String) (pkCol : Option String)
    (nnCols uqCols : Option (List String)) :
    List (String × PyVal) → Except Err Unit
  | [] => .ok ()
  | (column, value) :: rest =>
    match (get_column db table column "IND").2 with
    | .error e => .error e
    | .ok colvals =>
      let itms : List PyVal :=
        match colvals with
        | some l => l.map Prod.snd
        | none => []
      if (pkCol == some column ∨ memOpt uqCols column) ∧ itms.any (pyEq · value) then
        .error .uniqueConstraintViolation
      else if memOpt nnCols column ∧ value = .pyNone then
        .error .notNullConstraintViolation
      else preChecks db table pkCol nnCols uqCols rest

/-- `add_row`: validates the argument shape, converts each value, rejects
duplicate columns, runs the uniqueness / not-null pre-checks, then executes
one parameterized INSERT.  (The `len(couple) != 2` and `isinstance` checks
are shape checks that the typed embedding makes vacuous.) -/
def add_row (db : Db) (table : String) (args : List (String × PyVal)) :
    Db × Except Err Unit :=
  match db.tables.lookup table with
  | none => (db, .error .tableNotFound)
  | some cols =>
    if args = [] then (db, .error .invalidArgsType)
    else
      match buildColsVals db.disk (cols.map (·.name)) table args with
      | .error e => (db, .error e)
      | .ok (cs, vals) =>
        if ¬ cs.Nodup then (db, .error .duplicateColumnInArgs)
        else
          match (get_table db table).2 with
          | .error e => (db, .error e)
          | .ok _items =>
            let pkCol := getPk db.disk table
            let nnCols := getNn db.disk table
            let uqCols := getUq db.tables table
            match preChecks db table pkCol nnCols uqCols args with
            | .error e => (db, .error e)
            | .ok _ =>
              match diskInsert db.disk table cs vals with
              | .ok d => ({ db with disk := d }, .ok ())
              | .error _ => (db, .error .aioEasySqliteError)

/-- Per-value type check inside `edit_row`.  It mirrors `checkValueAddRow`
except that in the source the `raise TypeError(...)` of the bytes-column
branch is not inside an `else`: a `str` value is encoded and then the
`TypeError` is raised anyway, so *every* value aimed at a BLOB column is
rejected. -/
def checkValueEditRow (ctype : String) (v : PyVal) : Except Err PyVal :=
  match v with
  | .pyStr s =>
    if typeIsNum ctype ∧ ¬ allDigits s then .error .invalidValueConversion
    else if typeIsBytes ctype then
      let _encoded := pyEncode s
      .error .typeError
    else .ok v
  | .pyBytes _ =>
    if ¬ typeIsBytes ctype then .error .invalidValueConversion
    else .error .typeError
  | _ =>
    if typeIsBytes ctype then .error .typeError
    else .ok v

/-- `edit_row`: finds the first row with `column_find = current_value`,
checks the new value's type, then the uniqueness pre-check — which exempts a
colliding value only when it `==` the *find* value (`new_value !=
current_value`), not the edited row's own value — then not-null, then one
parameterized UPDATE limited to the first matching row. -/
def edit_row (db : Db) (table : String) (find_args edit_args : String × PyVal) :
    Db × Except Err Unit :=
  match db.tables.lookup table with
  | none => (db, .error .tableNotFound)
  | some cols =>
    let column_edit := edit_args.1
    let new_value0 := edit_args.2
    let column_find := find_args.1
    let current_value := find_args.2
    let names := cols.map (·.name)
    if ¬ names.contains column_edit then (db, .error .columnNotFound)
    else if ¬ names.contains column_find then (db, .error .columnNotFound)
    else
      match getType db.disk table column_edit with
      | none => (db, .error .aioEasySqliteError)
      | some ctype =>
        match checkValueEditRow ctype new_value0 with
        | .error e => (db, .error e)
        | .ok new_value =>
          match (get_table db table).2 with
          | .error e => (db, .error e)
          | .ok _items =>
            let pkCol := getPk db.disk table
            let nnCols := getNn db.disk table
            let uqCols := getUq db.tables table
            match (get_column db table column_edit "IND").2 with
            | .error e => (db, .error e)
            | .ok colvals =>
              let itms : List PyVal :=
                match colvals with
                | some l => l.map Prod.snd
                | none => []
              if (pkCol == some column_edit ∨ memOpt uqCols column_edit) ∧
                  itms.any (pyEq · new_value) ∧ ¬ pyEq new_value current_value then
                (db, .error .uniqueConstraintViolation)
              else if memOpt nnCols column_edit ∧ new_value = .pyNone then
                (db, .error .notNullConstraintViolation)
              else
                match diskUpdateFirst db.disk table column_edit new_value
                    column_find current_value with
                | .ok d => ({ db with disk := d }, .ok ())
                | .error _ => (db, .error .aioEasySqliteError)

/-- `get_row`: by `(column, value)` equality (first match, as a dict) or by
zero-based index over all rows.  Note the source's `if arg and not index`
sends `index = 0` down the `arg` branch whenever `arg` is given; the index
branch returns `None` for an empty table *before* the range check. -/
def get_row (db : Db) (table : String) (arg : Option (String × PyVal))
    (index : Option Int) : Db × Except Err (Option Row) :=
  match db.tables.lookup table with
  | none => (db, .error .tableNotFound)
  | some cols =>
    if arg.isNone ∧ index.isNone then (db, .error .missingRequiredArgument)
    else if arg.isSome ∧ (index.isNone ∨ index = some 0) then
      match arg with
      | some (c, v) =>
        if ¬ (cols.map (·.name)).contains c then (db, .error .columnNotFound)
        else
          match diskSelectWhere db.disk table c v with
          | .error _ => (db, .error .aioEasySqliteError)
          | .ok r => (db, .ok r)
      | none => (db, .ok none)
    else
      match index with
      | some i =>
        if i < 0 then (db, .error .invalidIndexValue)
        else
          match (get_table db table).2 with
          | .error e => (db, .error e)
          | .ok tinfo =>
            if tinfo.length = 0 then (db, .ok none)
            else if (tinfo.length : Int) ≤ i then (db, .error .indexOutOfRange)
            else (db, .ok (some (tinfo.getD i.toNat [])))
      | none => (db, .ok none)

/-- `delete_row`: validates table and column, then executes
`DELETE FROM "t" WHERE "c" = ?` — with no LIMIT clause. -/
def delete_row (db : Db) (table : String) (arg : String × PyVal) :
    Db × Except Err Unit :=
  match db.tables.lookup table with
  | none => (db, .error .tableNotFound)
  | some cols =>
    let column := arg.1
    let value := arg.2
    if ¬ (cols.map (·.name)).contains column then (db, .error .columnNotFound)
    else
      match diskDeleteWhere db.disk table column value with
      | .ok d => ({ db with disk := d }, .ok ())
      | .error _ => (db, .error .aioEasySqliteError)

/-- `_retrieveData`: rebuild the cache from the on-disk catalog; the
per-column uniqueness flag comes from `_is_column_unique` (which, see
`isColumnUnique`, returns `False` unconditionally). -/
def retrieveData (disk : Disk) : Cache :=
  disk.map (fun p =>
    (p.1, p.2.cols.map (fun c =>
      { name := c.name, type := c.type, is_unique := isColumnUnique disk p.1 c.name })))

/-- `load_data`: `self.tables = await self._retrieveData()`. -/
def load_data (db : Db) : Db × Except Err Unit :=
  ({ db with tables := retrieveData db.disk }, .ok ())

/-! ## Concrete states used by the theorems -/

/-- A freshly opened handle over an empty database file. -/
def db0 : Db := { tables := [], disk := [] }

/-- After `new_table("users")`. -/
def usersDb0 : Db := (new_table db0 "users").1

/-- After `add_column("users", "id", "INTEGER", primary_key=True)`. -/
def usersDb1 : Db := (add_column usersDb0 "users" "id" "INTEGER" true false false false none).1

/-- After `add_column("users", "name", "TEXT")`. -/
def usersDb2 : Db := (add_column usersDb1 "users" "name" "TEXT" false false false false none).1

/-- After `add_row("users", [("id", 1), ("name", "John")])`. -/
def usersDb3 : Db := (add_row usersDb2 "users" [("id", .pyInt 1), ("name", .pyStr "John")]).1

/-- `users(id INTEGER PRIMARY KEY, name TEXT)` with the row `(1, "John")`,
as it sits on disk in `usersDb3`. -/
def usersTbl : DiskTable :=
  { cols := [{ name := "id", type := "INTEGER", pk := true, notnull := false,
               unique := false, dflt := none },
             { name := "name", type := "TEXT", pk := false, notnull := false,
               unique := false, dflt := none }],
    rows := [[.pyInt 1, .pyStr "John"]] }

/-- After `new_table("a")`: the cache knows `a`, the disk does not (no column
was ever added, so no CREATE ran). -/
def aDb : Db := (new_table db0 "a").1

/-- `t(c1 TEXT)` on disk, cache `t -> [c1]`. -/
def tDb : Db :=
  (add_column (new_table db0 "t").1 "t" "c1" "TEXT" false false false false none).1

/-- `t3(id INTEGER)` with two rows both holding `id = 1`. -/
def twinDb : Db :=
  let s := (add_column (new_table db0 "t3").1 "t3" "id" "INTEGER" false false false false none).1
  (add_row (add_row s "t3" [("id", .pyInt 1)]).1 "t3" [("id", .pyInt 1)]).1

/-- `t5(u TEXT UNIQUE)` on disk. -/
def uniqDb : Db :=
  (add_column (new_table db0 "t5").1 "t5" "u" "TEXT" false false false true none).1

/-- `files(data BLOB)` on disk, no rows. -/
def blobDb : Db :=
  (add_column (new_table db0 "files").1 "files" "data" "BLOB" false false false false none).1

/-- The disk column declaration of `files.data`. -/
def blobCol : DiskCol :=
  { name := "data", type := "BLOB", pk := false, notnull := false,
    unique := false, dflt := none }

/-- `t8(id INTEGER)` declared and created, zero rows. -/
def idOnlyDb : Db :=
  (add_column (new_table db0 "t8").1 "t8" "id" "INTEGER" false false false false none).1

/-- `getD` commutes with `map` at in-range indices. -/
theorem listGetDMap (f : α → β) (d : β) (d' : α) :
    ∀ (l : List α) (n : Nat), n < l.length → (l.map f).getD n d = f (l.getD n d')
  | [], n, h => by simp at h
  | a :: tl, 0, _ => by simp
  | a :: tl, n + 1, h => by
    simp only [List.map_cons, List.getD_cons_succ]
    exact listGetDMap f d d' tl n (by simpa using h)

/-! ## Claim theorems -/

/-- Claim C1 (refuted; the code keeps the cache mutation when the on-disk
statement fails).  Renaming `a` to `b` when `a` was never materialised on
disk makes the `ALTER TABLE ... RENAME` fail, yet afterwards the cache key
`a` is gone and `b` is present.  Adding a second column with `unique=True`
makes the `ALTER TABLE ... ADD COLUMN ... UNIQUE` fail (SQLite cannot add a
UNIQUE column), yet the appended descriptor stays in the cache. -/
theorem c1_cache_mutated_on_disk_failure :
    (edit_table aDb "a" "b").2 = .error .aioEasySqliteError ∧
    ((edit_table aDb "a" "b").1.tables.lookup "a") = none ∧
    ((edit_table aDb "a" "b").1.tables.lookup "b") = some [] ∧
    (add_column tDb "t" "c2" "TEXT" false false false true none).2 =
      .error .aioEasySqliteError ∧
    ((add_column tDb "t" "c2" "TEXT" false false false true none).1.tables.lookup "t") =
      some [{ name := "c1", type := "TEXT", is_unique := false },
            { name := "c2", type := "TEXT", is_unique := true }] := by
  exact ⟨rfl, rfl, rfl, rfl, rfl⟩

/-- Claim C2: declare `users`, add an INTEGER primary-key column `id`, insert
`[("id", 1)]`, and `get_row` with arg `("id", 1)` returns the mapping
`{id: 1}`. -/
theorem c2_round_trip :
    (new_table db0 "users").2 = .ok () ∧
    (add_column usersDb0 "users" "id" "INTEGER" true false false false none).2 = .ok () ∧
    (add_row usersDb1 "users" [("id", .pyInt 1)]).2 = .ok () ∧
    (get_row (add_row usersDb1 "users" [("id", .pyInt 1)]).1 "users"
        (some ("id", .pyInt 1)) none).2 =
      .ok (some [("id", .pyInt 1)]) := by
  exact ⟨rfl, rfl, rfl, rfl⟩

/-- Claim C3 (refuted; the DELETE statement carries no LIMIT).  With two rows
both holding `id = 1`, `delete_row` on `("id", 1)` succeeds and leaves *zero*
rows: the second matching row is deleted too. -/
theorem c3_delete_row_removes_every_match :
    ((twinDb.disk.lookup "t3").map DiskTable.rows) =
      some [[.pyInt 1], [.pyInt 1]] ∧
    (delete_row twinDb "t3" ("id", .pyInt 1)).2 = .ok () ∧
    (((delete_row twinDb "t3" ("id", .pyInt 1)).1.disk.lookup "t3").map DiskTable.rows) =
      some [] := by
  exact ⟨rfl, rfl, rfl⟩

/-- Claim C4 (PK half refuted).  On `users(id INTEGER PRIMARY KEY, name
TEXT)` with the single row `(1, "John")`, `get_column` with tag `"PK"`
returns `[(0, 1)]` — position index first, primary-key value second — not
`[(1, "John")]` as the claim and the docstring state; tag `"IND"` returns
`[(0, "John")]` and an empty table yields `None`. -/
theorem c4_get_column_pk_shape :
    (get_column usersDb3 "users" "name" "PK").2 = .ok (some [(0, .pyInt 1)]) ∧
    (get_column usersDb3 "users" "name" "IND").2 = .ok (some [(0, .pyStr "John")]) ∧
    (get_column usersDb2 "users" "name" "PK").2 = .ok none := by
  exact ⟨rfl, rfl, rfl⟩

/-- Claim C5 (refuted; `finally: return False`).  `_is_column_unique` returns
`False` on every input because the `return False` in its `finally` block
overrides the `return True` of the `try` block; consequently `load_data` on a
database holding `t5(u TEXT UNIQUE)` caches `is_unique = False` for `u` even
though `u` is a member of a unique index (`isColumnUniqueTry`). -/
theorem c5_load_data_unique_flags_false :
    (∀ (disk : Disk) (t c : String), isColumnUnique disk t c = false) ∧
    isColumnUniqueTry uniqDb.disk "t5" "u" = true ∧
    (load_data { tables := [], disk := uniqDb.disk }).1.tables =
      [("t5", [{ name := "u", type := "TEXT", is_unique := false }])] := by
  exact ⟨fun _ _ _ => rfl, rfl, rfl⟩

/-- Claim C6 (refuted).  On `users(id INTEGER PRIMARY KEY, name TEXT)` with
the single row `(1, "John")`, editing via find `("name", "John")` and edit
`("id", 1)` sets the row's `id` to its own current value — yet the code
raises `UniqueConstraintViolation`, because its exemption compares the new
value against the *find* value `"John"` instead of the edited row's own
`id`. -/
theorem c6_edit_row_self_value_flagged_unique :
    edit_row usersDb3 "users" ("name", .pyStr "John") ("id", .pyInt 1) =
      (usersDb3, .error .uniqueConstraintViolation) := by
  exact rfl

/-- Claim C7 (refuted).  In `edit_row` the `raise TypeError` of the
bytes-column branch is not guarded by an `else` (unlike `add_row`), so
editing a BLOB column with a `str` value raises `TypeError` instead of
auto-encoding and proceeding. -/
theorem c7_edit_row_blob_raises :
    edit_row blobDb "files" ("data", .pyStr "x") ("data", .pyStr "y") =
      (blobDb, .error .typeError) := by
  exact rfl

/-- Claim C10: into the BLOB column `files.data`, `add_row` rejects every
native-bytes value with an error (`TypeError`), and accepts every `str`
value, auto-encoding it to bytes before the insert. -/
theorem c10_add_row_blob_bytes_rejected_str_encoded :
    (∀ bs : List Nat,
      add_row blobDb "files" [("data", .pyBytes bs)] = (blobDb, .error .typeError)) ∧
    (∀ s : String,
      add_row blobDb "files" [("data", .pyStr s)] =
        ({ blobDb with
            disk := [("files", { cols := [blobCol], rows := [[.pyBytes (pyEncode s)]] })] },
          .ok ())) := by
  exact ⟨fun _ => rfl, fun _ => rfl⟩

/-- Claim C8 counterexample: on `t8(id INTEGER)` with zero rows, `get_row`
with index `0` returns `None` instead of raising the out-of-range error the
claim demands for every `index ≥ row count` — the empty-table case returns
before the range check. -/
theorem c8_counterexample :
    (get_row idOnlyDb "t8" none (some 0)).2 = .ok none := by
  exact rfl

/-- Claim C8 (amended): for a declared table with at least one cached column
and a materialised disk table, `get_row` by index raises the invalid-index
error for every negative index; on a table with zero rows it returns `None`
for every non-negative index (no out-of-range error); for an in-range index
it returns the row at that zero-based position in on-disk order; and for
`index ≥ row count` on a non-empty table it raises the out-of-range
error. -/
theorem c8_get_row_by_index_amended (db : Db) (t : String) (cols : List ColDesc)
    (tbl : DiskTable) (i : Int)
    (hc : db.tables.lookup t = some cols) (hn : cols ≠ [])
    (hd : db.disk.lookup t = some tbl) :
    (i < 0 → (get_row db t none (some i)).2 = .error .invalidIndexValue) ∧
    (0 ≤ i → tbl.rows = [] → (get_row db t none (some i)).2 = .ok none) ∧
    (0 ≤ i → i < (tbl.rows.length : Int) →
      (get_row db t none (some i)).2 =
        .ok (some (rowDict tbl.cols (tbl.rows.getD i.toNat [])))) ∧
    (tbl.rows ≠ [] → (tbl.rows.length : Int) ≤ i →
      (get_row db t none (some i)).2 = .error .indexOutOfRange) := by
  have hlen : ¬ cols.length = 0 := by simpa [List.length_eq_zero] using hn
  have key : (get_row db t none (some i)).2 =
      (if i < 0 then (.error .invalidIndexValue : Except Err (Option Row))
       else if tbl.rows.length = 0 then .ok none
       else if (tbl.rows.length : Int) ≤ i then .error .indexOutOfRange
       else .ok (some ((tbl.rows.map (rowDict tbl.cols)).getD i.toNat []))) := by
    simp [get_row, hc, get_table, hd, hlen, not_le]
    split_ifs <;> rfl
  refine ⟨fun h1 => ?_, fun h0 hrows => ?_, fun h0 hlt => ?_, fun hne hle => ?_⟩
  · rw [key, if_pos h1]
  · rw [key, if_neg (not_lt.mpr h0), if_pos (by simp [hrows])]
  · have hlen0 : ¬ tbl.rows.length = 0 := by omega
    have hnle : ¬ (tbl.rows.length : Int) ≤ i := by omega
    have hnat : i.toNat < tbl.rows.length := by omega
    rw [key, if_neg (not_lt.mpr h0), if_neg hlen0, if_neg hnle,
      listGetDMap (rowDict tbl.cols) [] [] tbl.rows i.toNat hnat]
  · have hlp : 0 < tbl.rows.length := List.length_pos.mpr hne
    rw [key, if_neg (by omega), if_neg (by omega), if_pos hle]

/-- Witness for the amended C8 theorem: on `users` with one row, index `0`
returns that row as a dict. -/
theorem c8_amended_witness :
    (get_row usersDb3 "users" none (some 0)).2 =
      .ok (some [("id", .pyInt 1), ("name", .pyStr "John")]) := by
  have h := c8_get_row_by_index_amended usersDb3 "users"
      [{ name := "id", type := "INTEGER", is_unique := false },
       { name := "name", type := "TEXT", is_unique := false }]
      usersTbl 0 rfl (by decide) rfl
  exact h.2.2.1 (by decide) (by decide)

/-- Claim C9 counterexample: the empty table name is rejected by none of the
checks (`all` over the empty string is vacuously true), so `new_table("")`
succeeds and registers an entry under the empty-string key, instead of
raising a naming error. -/
theorem c9_counterexample :
    new_table db0 "" = ({ tables := [("", [])], disk := [] }, .ok ()) := by
  exact rfl

/-- Claim C9 (amended): `new_table` raises a naming error exactly for names
that start with `sqlite_`, contain a character outside `[A-Za-z0-9_]`, or
are already declared — the empty name is *not* rejected; every accepted name
(the empty one included) only appends a cache entry with an empty column
list, leaving the rest of the cache and the disk untouched. -/
theorem c9_new_table_amended (db : Db) (name : String) :
    (name.startsWith "sqlite_" = true →
      (new_table db name).2 = .error .invalidTableName) ∧
    (name.startsWith "sqlite_" = false → name.data.all availChar = false →
      (new_table db name).2 = .error .invalidCharacterInName) ∧
    (name.startsWith "sqlite_" = false → name.data.all availChar = true →
      (db.tables.lookup name).isSome = true →
      (new_table db name).2 = .error .tableAlreadyExists) ∧
    (name.startsWith "sqlite_" = false → name.data.all availChar = true →
      (db.tables.lookup name).isSome = false →
      new_table db name = ({ db with tables := db.tables ++ [(name, [])] }, .ok ())) := by
  refine ⟨fun h1 => by simp [new_table, h1],
          fun h1 h2 => by simp [new_table, h1, h2],
          fun h1 h2 h3 => by simp [new_table, h1, h2, h3],
          fun h1 h2 h3 => by simp [new_table, h1, h2, h3]⟩

/-- Witness for the amended C9 theorem: a valid fresh name is registered with
an empty column list and no disk change. -/
theorem c9_amended_witness :
    new_table db0 "users" = ({ db0 with tables := [("users", [])] }, .ok ()) := by
  exact (c9_new_table_amended db0 "users").2.2.2 rfl rfl rfl

end AioEasySqlite
